import Mathlib

/-!
Shallow embedding of the curriculum-comparison service
(`MainServer/curriculum/services.py`) of the Cred-It deployment.

Strings are Lean `String`s (Python `str`), numeric grade/unit values are
rationals (`ℚ`; the source manipulates Python floats / decimals — all
thresholds and test values in this development are exactly representable),
and the similarity scorer is a faithful functional translation of
CPython's `difflib.SequenceMatcher` as invoked by the source
(`SequenceMatcher(None, x, y).ratio()`: `isjunk = None`, `autojunk = True`).
-/

namespace CredIt

/-! ## difflib.SequenceMatcher (as called with isjunk = None) -/

/-- Length of the common prefix of two character lists (the greedy
character-by-character extension loop of `find_longest_match`; with
`isjunk = None` the junk set `bjunk` is empty, so the two junk-extension
loops never fire and matching extension compares raw characters). -/
def commonPrefixLen : List Char → List Char → Nat
  | a :: as, b :: bs => if a = b then commonPrefixLen as bs + 1 else 0
  | _, _ => 0

/-- Length of the common prefix of two character lists counting only
positions whose (equal) character is retained in `b2j` — the dynamic
programme `newj2len[j] = j2len.get(j-1, 0) + 1` of `find_longest_match`
chains a run only through indices present in `b2j`, and the autojunk
purge removes "popular" characters from `b2j`. -/
def commonRunLen (keep : Char → Bool) : List Char → List Char → Nat
  | a :: as, b :: bs => if a = b ∧ keep b then commonRunLen keep as bs + 1 else 0
  | _, _ => 0

/-- The autojunk purge of `__chain_b`: with `isjunk = None` and
`autojunk = True`, a character of `b` is dropped from `b2j` iff
`len(b) >= 200` and it occurs more than `len(b) // 100 + 1` times. -/
def bKeep (b : List Char) (c : Char) : Bool :=
  !(200 ≤ b.length && b.length / 100 + 1 < b.count c)

/-- Index list `b2j[c]`: ascending list of indices of `c` in `b`, empty when the
autojunk purge removed `c`. -/
def b2j (b : List Char) (c : Char) : List Nat :=
  if bKeep b c then (List.range b.length).filter (fun j => b.getD j c = c) else []

/-- A matching block `(besti, bestj, size)` as returned by
`find_longest_match`. -/
structure Block where
  besti : Nat
  bestj : Nat
  size : Nat
deriving DecidableEq

/-- The run length the dynamic programme associates with the cell
`(i, j)` of `find_longest_match(alo, ahi, blo, bhi)`: the chained run of
`b2j`-retained equal characters ending at `a[i]`/`b[j]`, clipped at the
window boundaries `alo`/`blo`. -/
def candK (a b : List Char) (alo blo i j : Nat) : Nat :=
  commonRunLen (bKeep b) ((a.drop alo).take (i + 1 - alo)).reverse
    ((b.drop blo).take (j + 1 - blo)).reverse

/-- The best-block scan of `find_longest_match`: for `i` ascending over
`range(alo, ahi)` and `j` ascending over `b2j[a[i]]` restricted to
`[blo, bhi)`, replace the current best exactly when the run length is
strictly greater (`if k > bestsize`). Initial best is `(alo, blo, 0)`. -/
def flmCore (a b : List Char) (alo ahi blo bhi : Nat) : Block :=
  (List.range' alo (ahi - alo)).foldl (fun best i =>
      ((b2j b (a.getD i 'a')).filter (fun j => decide (blo ≤ j ∧ j < bhi))).foldl
        (fun best j =>
          let k := candK a b alo blo i j
          if best.size < k then ⟨i + 1 - k, j + 1 - k, k⟩ else best)
        best)
    ⟨alo, blo, 0⟩

/-- Leftward extension of the best block (`while besti > alo and
bestj > blo and a[besti-1] == b[bestj-1]`). -/
def extendLeft (a b : List Char) (alo blo : Nat) (blk : Block) : Block :=
  let d := commonPrefixLen ((a.drop alo).take (blk.besti - alo)).reverse
    ((b.drop blo).take (blk.bestj - blo)).reverse
  ⟨blk.besti - d, blk.bestj - d, blk.size + d⟩

/-- Rightward extension of the best block (`while besti+bestsize < ahi
and bestj+bestsize < bhi and a[besti+bestsize] == b[bestj+bestsize]`). -/
def extendRight (a b : List Char) (ahi bhi : Nat) (blk : Block) : Block :=
  let e := commonPrefixLen ((a.drop (blk.besti + blk.size)).take (ahi - (blk.besti + blk.size)))
    ((b.drop (blk.bestj + blk.size)).take (bhi - (blk.bestj + blk.size)))
  ⟨blk.besti, blk.bestj, blk.size + e⟩

/-- Python's `find_longest_match(alo, ahi, blo, bhi)` with `isjunk = None`:
best-block scan, then plain left and right extension (the junk
extension loops are vacuous because `bjunk = ∅`). -/
def find_longest_match (a b : List Char) (alo ahi blo bhi : Nat) : Block :=
  extendRight a b ahi bhi (extendLeft a b alo blo (flmCore a b alo ahi blo bhi))

/-- Total size of the matching blocks produced by `get_matching_blocks`'s
queue recursion over a window (the queue order affects only the order in
which blocks are found, never the set of blocks, hence never this sum;
the final sort-and-merge of adjacent blocks also preserves the sum).
Fuel-based recursion: each recursive window is strictly smaller, so any
fuel of at least `(ahi - alo) + (bhi - blo)` computes the fixpoint. -/
def matchSumFuel (a b : List Char) : Nat → Nat → Nat → Nat → Nat → Nat
  | 0, _, _, _, _ => 0
  | fuel + 1, alo, ahi, blo, bhi =>
    let blk := find_longest_match a b alo ahi blo bhi
    if blk.size = 0 then 0
    else
      blk.size
        + (if alo < blk.besti ∧ blo < blk.bestj then
            matchSumFuel a b fuel alo blk.besti blo blk.bestj else 0)
        + (if blk.besti + blk.size < ahi ∧ blk.bestj + blk.size < bhi then
            matchSumFuel a b fuel (blk.besti + blk.size) ahi (blk.bestj + blk.size) bhi else 0)

/-- The match total `M = sum(triple[-1] for triple in self.get_matching_blocks())`. -/
def matchTotal (a b : List Char) : Nat :=
  matchSumFuel a b (a.length + b.length) 0 a.length 0 b.length

/-- The value of `SequenceMatcher.ratio()` = `2.0 * M / T` (and `1.0` for two empty
sequences, per `_calculate_ratio`). -/
def ratioValue (a b : List Char) : ℚ :=
  if a.length + b.length = 0 then 1
  else 2 * (matchTotal a b : ℚ) / ((a.length : ℚ) + (b.length : ℚ))

/-- Translation of `CurriculumService.calculate_similarity`: 0 for an empty argument,
otherwise the `SequenceMatcher` ratio of the lower-cased texts, scaled
to a percentage. (`str.lower` is modelled by `Char.toLower`, which
agrees with it on the ASCII texts this development evaluates.) -/
def calculate_similarity (text1 text2 : String) : ℚ :=
  if text1 = "" ∨ text2 = "" then 0
  else ratioValue (text1.toList.map Char.toLower) (text2.toList.map Char.toLower) * 100


/-! ## Data model (`curriculum/models.py` fields used by `services.py`) -/

/-- The enum `CompareResultTOR.CreditEvaluation` — the fixed disposition enum. -/
inductive CreditEvaluation
  | ACCEPTED
  | DENIED
  | VOID
  | INVESTIGATE
deriving DecidableEq

/-- A `CompareResultTOR` row.  `is_passing_grade` — Modelled from the
spec: the source reads the model property `entry.is_passing_grade`
("the entry's current passing state", §4.4b), whose definition lives in
`curriculum/models.py`, which is not part of the sources; it is modelled
as a per-entry boolean signal that the service reads but never writes. -/
structure CompareResultTOR where
  id : Nat
  account_id : String
  subject_code : String
  subject_description : String
  total_academic_units : ℚ
  final_grade : ℚ
  remarks : String
  summary : String
  credit_evaluation : CreditEvaluation
  notes : String
  is_passing_grade : Bool
deriving DecidableEq

/-- A `CitTorContent` row (curriculum subject): code, the ordered list of
description variants, integer unit count, active flag. -/
structure CitTorContent where
  subject_code : String
  description : List String
  units : Int
  is_active : Bool
deriving DecidableEq

/-- A `TorTransferee` intake row (the fields `copy_tor_entries` reads;
its nullable `remarks` is modelled as a `String`, on which the source's
`entry.remarks or ''` is the identity). -/
structure TorTransferee where
  account_id : String
  subject_code : String
  subject_description : String
  total_academic_units : ℚ
  final_grade : ℚ
  remarks : String
deriving DecidableEq

/-- The database state the service reads and writes. -/
structure DB where
  compareResults : List CompareResultTOR
  citContents : List CitTorContent
  torTransferees : List TorTransferee
deriving DecidableEq

/-- The error taxonomy raised by the service entry points
(`core.exceptions`). -/
inductive Err
  | validation
  | notFound
deriving DecidableEq

/-! ## Numeric helpers for Python built-ins -/

/-- Python `int()` on a (non-integral) number: truncation toward zero. -/
def pyInt (q : ℚ) : Int :=
  if q < 0 then -⌊-q⌋ else ⌊q⌋

/-- Round-half-to-even at integer precision (Python `round`'s and float
formatting's tie-breaking rule). -/
def roundHalfEven (x : ℚ) : Int :=
  if x - ⌊x⌋ < 1 / 2 then ⌊x⌋
  else if 1 / 2 < x - ⌊x⌋ then ⌊x⌋ + 1
  else if 2 ∣ ⌊x⌋ then ⌊x⌋ else ⌊x⌋ + 1

/-- Python `f"{x:.1f}"` for the nonnegative scores this service formats:
round half-even at one decimal and print one fractional digit. -/
def formatQ1 (x : ℚ) : String :=
  let r := roundHalfEven (x * 10)
  toString (r / 10) ++ "." ++ toString (r % 10)

/-- Python `round(x, 2)`: round half-even at two decimals. -/
def pyRound2 (x : ℚ) : ℚ :=
  (roundHalfEven (x * 100) : ℚ) / 100

/-- Python `repr` of a float holding a value with at most one fractional
decimal digit (the only numeric values this development interpolates into
f-strings): `20.0` prints as `"20.0"`, `1.5` as `"1.5"`. -/
def qRepr (q : ℚ) : String :=
  if q.den = 1 then toString q.num ++ ".0"
  else toString (pyInt q) ++ "." ++ toString ((q * 10).num % 10)

/-! ## Service constants -/

def STANDARD_PASSING_MIN : ℚ := 1
def STANDARD_PASSING_MAX : ℚ := 29 / 10
def STANDARD_FAILING_MIN : ℚ := 3
def STANDARD_FAILING_MAX : ℚ := 5
def SIMILARITY_THRESHOLD : ℚ := 20

/-! ## generate_summary -/

/-- The description-similarity scan of `generate_summary`: for each
curriculum row of the queryset passed in (in order) and each of its
description variants (in order), keep the strictly greater similarity
together with the owning subject code.  Initial state: `best_match = 0.0`,
`best_match_subject = None`. -/
def descBest (entry : CompareResultTOR) (cit_entries : List CitTorContent) :
    Option String × ℚ :=
  cit_entries.foldl (fun acc cit =>
      cit.description.foldl (fun acc desc =>
          let similarity := calculate_similarity entry.subject_description desc
          if similarity > acc.2 then (some cit.subject_code, similarity) else acc)
        acc)
    (none, 0)

/-- Python's f-string rendering of an `Optional[str]`. -/
def pyOptStr : Option String → String
  | some s => s
  | none => "None"

/-- The units check of `generate_summary`:
`cit_entries.filter(units=int(entry.total_academic_units)).exists()`. -/
def unitsMatch (entry : CompareResultTOR) (cit_entries : List CitTorContent) : Bool :=
  !(cit_entries.filter
      (fun c => decide (c.units = pyInt entry.total_academic_units))).isEmpty

/-- The four lines `generate_summary` appends to `lines`, in order:
subject-code check, description similarity, units check, grade check. -/
def summaryLines (entry : CompareResultTOR) (cit_entries : List CitTorContent) :
    List String :=
  let match_count :=
    (cit_entries.filter (fun c => decide (c.subject_code = entry.subject_code))).length
  let line1 :=
    if match_count = 0 then "⚠ Subject Code: No matches found in CIT curriculum"
    else if match_count = 1 then "✓ Subject Code: Exact match found in CIT curriculum"
    else "⚠ Subject Code: " ++ toString match_count ++ " matches found (review needed)"
  let bm := descBest entry cit_entries
  let line2 :=
    if bm.2 ≥ 80 then
      "✓ Description: " ++ formatQ1 bm.2 ++ "% match with " ++ pyOptStr bm.1
    else if bm.2 ≥ 50 then
      "⚠ Description: " ++ formatQ1 bm.2 ++ "% match with " ++ pyOptStr bm.1
        ++ " (review needed)"
    else "✗ Description: Low similarity (" ++ formatQ1 bm.2 ++ "%)"
  let line3 :=
    if unitsMatch entry cit_entries then
      "✓ Units: " ++ toString (pyInt entry.total_academic_units)
        ++ " units matches curriculum"
    else
      "⚠ Units: " ++ toString (pyInt entry.total_academic_units)
        ++ " units - verify equivalency"
  let line4 :=
    if entry.is_passing_grade then
      "✓ Grade: " ++ qRepr entry.final_grade ++ " (Passing)"
    else "✗ Grade: " ++ qRepr entry.final_grade ++ " (Not passing)"
  [line1, line2, line3, line4]

/-- Translation of `CurriculumService.generate_summary`: `"\n".join(lines)`. -/
def generate_summary (entry : CompareResultTOR) (cit_entries : List CitTorContent) :
    String :=
  "\n".intercalate (summaryLines entry cit_entries)

/-! ## Grading (apply_standard_grading / apply_reverse_grading) -/

/-- The remark the standard-grading loop writes for a grade. -/
def standardRemark (g : ℚ) : String :=
  if STANDARD_PASSING_MIN ≤ g ∧ g ≤ STANDARD_PASSING_MAX then "PASSED"
  else if STANDARD_FAILING_MIN ≤ g ∧ g ≤ STANDARD_FAILING_MAX then "FAILED"
  else "INVALID GRADE"

/-- The remark the reverse-grading loop writes for a grade. -/
def reverseRemark (g : ℚ) : String :=
  if STANDARD_FAILING_MIN ≤ g ∧ g ≤ STANDARD_FAILING_MAX then "PASSED"
  else if STANDARD_PASSING_MIN ≤ g ∧ g ≤ STANDARD_PASSING_MAX then "FAILED"
  else "INVALID GRADE"

/-- One iteration of the standard-grading loop: set `remarks`, then
regenerate `summary` on the mutated entry. -/
def computeStd (cit : List CitTorContent) (e : CompareResultTOR) : CompareResultTOR :=
  let e1 := { e with remarks := standardRemark e.final_grade }
  { e1 with summary := generate_summary e1 cit }

/-- One iteration of the reverse-grading loop. -/
def computeRev (cit : List CitTorContent) (e : CompareResultTOR) : CompareResultTOR :=
  let e1 := { e with remarks := reverseRemark e.final_grade }
  { e1 with summary := generate_summary e1 cit }

/-! ## Persistence model -/

/-- The per-row field write of `bulk_update`: only the listed fields are taken
from the recomputed row, everything else keeps its stored value
(`updated_at` is not modelled). -/
def writeFields (fields : List String) (old new : CompareResultTOR) :
    CompareResultTOR :=
  { old with
    remarks := if "remarks" ∈ fields then new.remarks else old.remarks
    summary := if "summary" ∈ fields then new.summary else old.summary
    credit_evaluation :=
      if "credit_evaluation" ∈ fields then new.credit_evaluation else old.credit_evaluation
    notes := if "notes" ∈ fields then new.notes else old.notes }

/-- Translation of `CompareResultTOR.objects.bulk_update(updated, fields)`: every stored
row that appears (by primary key) in the updated list gets the listed
fields rewritten. -/
def bulkUpdate (db : DB) (updated : List CompareResultTOR) (fields : List String) : DB :=
  { db with
    compareResults := db.compareResults.map (fun old =>
      match updated.find? (fun n => decide (n.id = old.id)) with
      | some n => writeFields fields old n
      | none => old) }

/-- The field list of the grading passes' `bulk_update`. -/
def gradingFields : List String := ["remarks", "summary", "updated_at"]

/-- The field list of `sync_curriculum_matching`'s `bulk_update`. -/
def syncFields : List String := ["summary", "credit_evaluation", "updated_at"]

/-- Modelled from the spec: the `atomic_transaction` decorator
(`core.decorators`, not among the sources) makes each batch entry point
"a single atomic batch (all-or-nothing persistence)" (§4.5).  The batch
shape below is the one the source entry points share: validate the
account id, load its entries, compute every per-entry mutation in local
memory (a failure while computing any entry aborts the whole batch), and
only then persist all of them through one `bulk_update`. -/
def runBatch {α : Type} (compute : CompareResultTOR → Except Err (CompareResultTOR × α))
    (fields : List String) (account_id : String) (db : DB) :
    Except Err (List α) × DB :=
  if account_id = "" then (.error .validation, db)
  else if (db.compareResults.filter (fun e => decide (e.account_id = account_id))).isEmpty then
    (.error .notFound, db)
  else
    match (db.compareResults.filter (fun e => decide (e.account_id = account_id))).mapM compute with
    | .error e => (.error e, db)
    | .ok pairs => (.ok (pairs.map Prod.snd), bulkUpdate db (pairs.map Prod.fst) fields)

/-- Translation of `CurriculumService.apply_standard_grading` (returns the recomputed
entries; persists `remarks`, `summary`, `updated_at`). -/
def apply_standard_grading (account_id : String) (db : DB) :
    Except Err (List CompareResultTOR) × DB :=
  runBatch
    (fun e => .ok (computeStd (db.citContents.filter (fun c => c.is_active)) e,
      computeStd (db.citContents.filter (fun c => c.is_active)) e))
    gradingFields account_id db

/-- Translation of `CurriculumService.apply_reverse_grading`. -/
def apply_reverse_grading (account_id : String) (db : DB) :
    Except Err (List CompareResultTOR) × DB :=
  runBatch
    (fun e => .ok (computeRev (db.citContents.filter (fun c => c.is_active)) e,
      computeRev (db.citContents.filter (fun c => c.is_active)) e))
    gradingFields account_id db

/-! ## sync_curriculum_matching -/

/-- The best-match scan of `sync_curriculum_matching`: over the catalog in
iteration order, score the entry description against the space-joined
description variants, keeping a strictly greater score and its owning
subject.  Initial state: `best_match = None`, `best_accuracy = 0.0`. -/
def bestMatchFold (desc : String) (catalog : List CitTorContent) :
    Option CitTorContent × ℚ :=
  catalog.foldl (fun acc cit =>
      let accuracy := calculate_similarity desc (" ".intercalate cit.description)
      if accuracy > acc.2 then (some cit, accuracy) else acc)
    (none, 0)

/-- The disposition the match branch assigns
(`best_accuracy >= 80 and tor.is_passing_grade` → ACCEPTED;
`elif best_accuracy >= 50` → VOID; else DENIED). -/
def creditEvalOf (best_accuracy : ℚ) (passing : Bool) : CreditEvaluation :=
  if best_accuracy ≥ 80 ∧ passing then .ACCEPTED
  else if best_accuracy ≥ 50 then .VOID
  else .DENIED

/-- The disposition `sync_curriculum_matching` assigns as a function of
the best accuracy and the passing state: threshold branch included. -/
def syncDisposition (best_accuracy : ℚ) (passing : Bool) : CreditEvaluation :=
  if best_accuracy ≥ SIMILARITY_THRESHOLD then creditEvalOf best_accuracy passing
  else .INVESTIGATE

/-- A row of the list `sync_curriculum_matching` returns. -/
structure ResultRow where
  subject_code : String
  subject_description : String
  total_academic_units : ℚ
  final_grade : ℚ
  remarks : String
  summary : String
  credit_evaluation : CreditEvaluation
  match_accuracy : Int
  matched_subject : Option String
deriving DecidableEq

/-- The `CIT Subject` / units rendering of the match-found summary.  In
the source the match branch dereferences `best_match` directly; the
`none` case is unreachable there (a score at or above the positive
threshold implies the scan selected a subject) and is rendered like
Python renders `None`. -/
def optSubjCode : Option CitTorContent → String
  | some c => c.subject_code
  | none => "None"

def optUnitsStr : Option CitTorContent → String
  | some c => toString c.units
  | none => "None"

/-- One iteration of the `sync_curriculum_matching` loop: find the best
catalog match, write `summary` and `credit_evaluation`, and build the
report row. -/
def syncEntry (catalog : List CitTorContent) (tor : CompareResultTOR) :
    CompareResultTOR × ResultRow :=
  let bm := bestMatchFold tor.subject_description catalog
  let tor1 :=
    if bm.2 ≥ SIMILARITY_THRESHOLD then
      { tor with
        summary :=
          "✓ Match Found\n" ++ "CIT Subject: " ++ optSubjCode bm.1 ++ "\n"
            ++ "Similarity: " ++ toString (pyInt bm.2) ++ "%\n"
            ++ "Units: Student=" ++ toString (pyInt tor.total_academic_units)
            ++ ", CIT=" ++ optUnitsStr bm.1
        credit_evaluation := creditEvalOf bm.2 tor.is_passing_grade }
    else
      { tor with
        summary :=
          "✗ No Match Found\n" ++ "Description similarity below "
            ++ qRepr SIMILARITY_THRESHOLD ++ "% threshold\n" ++ "Best match: "
            ++ optSubjCode bm.1 ++ " (" ++ toString (pyInt bm.2) ++ "%)"
        credit_evaluation := .INVESTIGATE }
  let row : ResultRow :=
    { subject_code := tor1.subject_code
      subject_description := tor1.subject_description
      total_academic_units := tor1.total_academic_units
      final_grade := tor1.final_grade
      remarks := tor1.remarks
      summary := tor1.summary
      credit_evaluation := tor1.credit_evaluation
      match_accuracy := match bm.1 with | some _ => pyInt bm.2 | none => 0
      matched_subject := bm.1.map (fun c => c.subject_code) }
  (tor1, row)

/-- Translation of `CurriculumService.sync_curriculum_matching` (persists `summary`,
`credit_evaluation`, `updated_at`; returns the report rows). -/
def sync_curriculum_matching (account_id : String) (db : DB) :
    Except Err (List ResultRow) × DB :=
  runBatch
    (fun e => .ok (syncEntry (db.citContents.filter (fun c => c.is_active)) e))
    syncFields account_id db

/-! ## copy_tor_entries -/

/-- A fresh primary key for a row created by `get_or_create`. -/
def nextId (lst : List CompareResultTOR) : Nat :=
  lst.foldr (fun e m => max (e.id + 1) m) 0

/-- The `defaults={...}` row `get_or_create` builds from an intake row:
remarks copied (`entry.remarks or ''`), empty summary, disposition VOID.
`is_passing_grade` is a model property, not a stored column; the created
row's signal is modelled as `false` until grading runs. -/
def torDefaults (t : TorTransferee) (newId : Nat) : CompareResultTOR :=
  { id := newId
    account_id := t.account_id
    subject_code := t.subject_code
    subject_description := t.subject_description
    total_academic_units := t.total_academic_units
    final_grade := t.final_grade
    remarks := t.remarks
    summary := ""
    credit_evaluation := .VOID
    notes := ""
    is_passing_grade := false }

/-- Translation of `get_or_create(account_id=…, subject_code=…, defaults=…)`: return the
first stored row with that composite key and `created = False`, or append
the defaults row and return it with `created = True`. -/
def getOrCreate (lst : List CompareResultTOR) (t : TorTransferee) :
    CompareResultTOR × Bool × List CompareResultTOR :=
  match lst.find? (fun e =>
      decide (e.account_id = t.account_id ∧ e.subject_code = t.subject_code)) with
  | some e => (e, false, lst)
  | none =>
    let newE := torDefaults t (nextId lst)
    (newE, true, lst ++ [newE])

/-- The `copy_tor_entries` loop over the intake rows, threading the stored
rows: returns (`compare_entries`, `created_count`, final stored rows). -/
def copyGo : List TorTransferee → List CompareResultTOR →
    List CompareResultTOR × Nat × List CompareResultTOR
  | [], lst => ([], 0, lst)
  | t :: ts, lst =>
    let step := getOrCreate lst t
    let rest := copyGo ts step.2.2
    (step.1 :: rest.1, (if step.2.1 then 1 else 0) + rest.2.1, rest.2.2)

/-- Translation of `CurriculumService.copy_tor_entries`: validate, load the account's
intake rows, create-if-absent per row.  The source returns
`compare_entries` and logs `created_count`; the count is part of the
result here so the idempotence claim can speak about it. -/
def copy_tor_entries (account_id : String) (db : DB) :
    Except Err (List CompareResultTOR × Nat) × DB :=
  if account_id = "" then (.error .validation, db)
  else if (db.torTransferees.filter (fun t => decide (t.account_id = account_id))).isEmpty then
    (.error .notFound, db)
  else
    (.ok ((copyGo (db.torTransferees.filter (fun t => decide (t.account_id = account_id)))
          db.compareResults).1,
        (copyGo (db.torTransferees.filter (fun t => decide (t.account_id = account_id)))
          db.compareResults).2.1),
     { db with compareResults :=
        (copyGo (db.torTransferees.filter (fun t => decide (t.account_id = account_id)))
          db.compareResults).2.2 })

/-! ## update_tor_results -/

/-- One `passed_subjects` iteration: `filter(account_id=…,
subject_code=…).update(remarks=…)` — rewrite the remarks of every
matching stored row and report how many rows matched. -/
def applyPassedSubject (account_id : String) (lst : List CompareResultTOR)
    (subj : String × String) : List CompareResultTOR × Nat :=
  (lst.map (fun e =>
      if e.account_id = account_id ∧ e.subject_code = subj.1 then
        { e with remarks := subj.2 }
      else e),
   (lst.filter (fun e =>
      decide (e.account_id = account_id ∧ e.subject_code = subj.1))).length)

/-- The `passed_subjects` loop, threading the stored rows and the running
updated-row count. -/
def passedFold (account_id : String) (passed_subjects : List (String × String))
    (start : List CompareResultTOR) : List CompareResultTOR × Nat :=
  passed_subjects.foldl (fun acc subj =>
      ((applyPassedSubject account_id acc.1 subj).1,
        acc.2 + (applyPassedSubject account_id acc.1 subj).2))
    (start, 0)

/-- Translation of `CurriculumService.update_tor_results`: delete the failed subjects,
then update the remarks of each passed subject (`updated_at` is written
to itself via an F-expression and is not modelled). -/
def update_tor_results (account_id : String) (failed_subjects : List String)
    (passed_subjects : List (String × String)) (db : DB) :
    Except Err (Nat × Nat) × DB :=
  if account_id = "" then (.error .validation, db)
  else
    (.ok (db.compareResults.length
        - (db.compareResults.filter (fun e =>
            !decide (e.account_id = account_id ∧ e.subject_code ∈ failed_subjects))).length,
      (passedFold account_id passed_subjects
        (db.compareResults.filter (fun e =>
          !decide (e.account_id = account_id ∧ e.subject_code ∈ failed_subjects)))).2),
     { db with compareResults :=
        (passedFold account_id passed_subjects
          (db.compareResults.filter (fun e =>
            !decide (e.account_id = account_id ∧ e.subject_code ∈ failed_subjects)))).1 })

/-! ## get_comparison_statistics -/

/-- Translation of `CurriculumService.get_comparison_statistics`: the stats dictionary,
in the source's key order, every value read as a rational number.  The
average is `round(avg, 2) if avg else 0.0` (`None` for an empty queryset
and `0.0` are both falsy). -/
def get_comparison_statistics (account_id : String) (db : DB) : List (String × ℚ) :=
  let entries := db.compareResults.filter (fun e => decide (e.account_id = account_id))
  let avgRaw : ℚ := (entries.map (fun e => e.final_grade)).sum / entries.length
  [("total", entries.length),
   ("accepted",
     (entries.filter (fun e => decide (e.credit_evaluation = .ACCEPTED))).length),
   ("denied",
     (entries.filter (fun e => decide (e.credit_evaluation = .DENIED))).length),
   ("void",
     (entries.filter (fun e => decide (e.credit_evaluation = .VOID))).length),
   ("passed", (entries.filter (fun e => decide (e.remarks = "PASSED"))).length),
   ("failed", (entries.filter (fun e => decide (e.remarks = "FAILED"))).length),
   ("average_grade",
     if entries.isEmpty ∨ avgRaw = 0 then 0 else pyRound2 avgRaw),
   ("total_units", (entries.map (fun e => e.total_academic_units)).sum)]

/-! ## Spec-side definitions (for the refinement-style claims) -/

/-- The score `sync_curriculum_matching` gives one catalog subject. -/
def syncScore (desc : String) (cit : CitTorContent) : ℚ :=
  calculate_similarity desc (" ".intercalate cit.description)

/-- Following the spec's words ("track the maximum score"): the maximum
similarity score over the catalog (0 for an empty catalog). -/
def specMaxScore (desc : String) (catalog : List CitTorContent) : ℚ :=
  (catalog.map (syncScore desc)).foldr max 0

/-- Following the spec's words ("ties keep the first-seen subject — first
match in catalog iteration order wins", best subject "nullable if catalog
empty or all scores are 0"): the first catalog subject attaining the
maximum score, provided that maximum is positive. -/
def specFirstMatch (desc : String) (catalog : List CitTorContent) :
    Option CitTorContent :=
  if 0 < specMaxScore desc catalog then
    catalog.find? (fun c => decide (specMaxScore desc catalog ≤ syncScore desc c))
  else none

/-- The candidate pool of `generate_summary`'s description scan, flattened
in iteration order: one (owning subject code, description variant) item
per inner-loop step. -/
def descItems (cit_entries : List CitTorContent) : List (String × String) :=
  cit_entries.flatMap (fun c => c.description.map (fun d => (c.subject_code, d)))

/-- The similarity scores `generate_summary`'s description scan computes,
in iteration order. -/
def descSims (entry : CompareResultTOR) (cit_entries : List CitTorContent) : List ℚ :=
  (descItems cit_entries).map (fun it => calculate_similarity entry.subject_description it.2)

/-- Following the claim's words for the description-similarity pool the
claim asserts: the best similarity computed only over the curriculum
subjects whose code equals the entry's code. -/
def sameCodeBest (entry : CompareResultTOR) (cit_entries : List CitTorContent) :
    Option String × ℚ :=
  descBest entry
    (cit_entries.filter (fun c => decide (c.subject_code = entry.subject_code)))

/-! ## Concrete fixtures used by closed witness/counterexample theorems -/

/-- A stored transcript entry with fractional units and a passing grade. -/
def fixtureEntry : CompareResultTOR :=
  { id := 1
    account_id := "S100"
    subject_code := "CS101"
    subject_description := "abc"
    total_academic_units := mkRat 7 2
    final_grade := mkRat 3 2
    remarks := "OLD"
    summary := "OLDSUM"
    credit_evaluation := .VOID
    notes := ""
    is_passing_grade := true }

/-- A curriculum subject with a different code but an identical
description variant. -/
def fixtureCitOther : CitTorContent :=
  { subject_code := "M1", description := ["abc"], units := 3, is_active := true }

/-- A curriculum subject sharing the entry's code but with an unrelated
description variant. -/
def fixtureCitSame : CitTorContent :=
  { subject_code := "CS101", description := ["xyz"], units := 4, is_active := true }

def fixtureDB : DB :=
  { compareResults := [fixtureEntry]
    citContents := [fixtureCitOther, fixtureCitSame]
    torTransferees := [] }

/-- An intake row for the idempotence witness. -/
def fixtureTransferee : TorTransferee :=
  { account_id := "S9"
    subject_code := "X"
    subject_description := "d"
    total_academic_units := 3
    final_grade := 2
    remarks := "" }

def fixtureIntakeDB : DB :=
  { compareResults := [], citContents := [], torTransferees := [fixtureTransferee] }

/-- A stored entry whose disposition is INVESTIGATE. -/
def fixtureInvEntry : CompareResultTOR :=
  { id := 2
    account_id := "S7"
    subject_code := "GE1"
    subject_description := "x"
    total_academic_units := 3
    final_grade := 2
    remarks := ""
    summary := ""
    credit_evaluation := .INVESTIGATE
    notes := ""
    is_passing_grade := true }

def fixtureInvDB : DB :=
  { compareResults := [fixtureInvEntry], citContents := [], torTransferees := [] }

/-- A per-entry computation that fails, for exercising batch atomicity. -/
def failingCompute : CompareResultTOR → Except Err (CompareResultTOR × Unit) :=
  fun _ => .error .validation

/-! ## Helper lemmas -/

theorem foldl_preserve {α σ : Type} (P : σ → Prop) :
    ∀ (l : List α) (step : σ → α → σ) (s : σ), P s →
      (∀ st x, x ∈ l → P st → P (step st x)) → P (l.foldl step s)
  | [], _, _, hs, _ => hs
  | x :: l, step, s, hs, hstep =>
    foldl_preserve P l step (step s x) (hstep s x (List.mem_cons_self x l) hs)
      (fun st y hy hst => hstep st y (List.mem_cons_of_mem x hy) hst)

theorem foldr_max_nonneg : ∀ l : List ℚ, 0 ≤ l.foldr max 0
  | [] => le_refl 0
  | x :: l => le_trans (foldr_max_nonneg l) (le_max_right x _)

/-- The strict-greater best-tracking fold shared by `bestMatchFold` and
`descBest`: its final score is the maximum of the seed and all scores,
and its final selection is the first item attaining that maximum (the
seed selection when no item strictly beats the seed). -/
theorem foldBest_eq {α β : Type} (score : α → ℚ) (payload : α → β) :
    ∀ (l : List α) (b : Option β) (m : ℚ), 0 ≤ m →
      l.foldl (fun acc x => if score x > acc.2 then (some (payload x), score x) else acc)
          (b, m)
        = (if m < max m ((l.map score).foldr max 0) then
             (l.find? (fun x =>
               decide (max m ((l.map score).foldr max 0) ≤ score x))).map payload
           else b,
           max m ((l.map score).foldr max 0)) := by
  intro l
  induction l with
  | nil =>
    intro b m hm
    simp [max_eq_left hm]
  | cons x l ih =>
    intro b m hm
    simp only [List.foldl_cons, List.map_cons, List.foldr_cons]
    by_cases hs : m < score x
    · rw [if_pos (show score x > (b, m).2 from hs)]
      have hM : max m (max (score x) ((l.map score).foldr max 0))
          = max (score x) ((l.map score).foldr max 0) :=
        max_eq_right (le_trans (le_of_lt hs) (le_max_left _ _))
      simp only [hM]
      have hxM : score x ≤ max (score x) ((l.map score).foldr max 0) := le_max_left _ _
      rw [ih (some (payload x)) (score x) (le_of_lt (lt_of_le_of_lt hm hs))]
      rw [if_pos (lt_of_lt_of_le hs hxM)]
      by_cases hx : score x < max (score x) ((l.map score).foldr max 0)
      · rw [if_pos hx,
          List.find?_cons_of_neg _ (by simp only [decide_eq_true_eq]; exact not_le.mpr hx)]
      · rw [if_neg hx,
          List.find?_cons_of_pos _ (by simp only [decide_eq_true_eq]; exact not_lt.mp hx)]
        simp
    · rw [if_neg (show ¬ score x > (b, m).2 from hs)]
      have hM : max m (max (score x) ((l.map score).foldr max 0))
          = max m ((l.map score).foldr max 0) := by
        rw [← max_assoc, max_eq_left (not_lt.mp hs)]
      simp only [hM]
      rw [ih b m hm]
      by_cases h2 : m < max m ((l.map score).foldr max 0)
      · rw [if_pos h2, if_pos h2,
          List.find?_cons_of_neg _ (by
            simp only [decide_eq_true_eq]
            exact not_le.mpr (lt_of_le_of_lt (not_lt.mp hs) h2))]
      · rw [if_neg h2, if_neg h2]

theorem commonPrefixLen_le_left : ∀ l1 l2 : List Char, commonPrefixLen l1 l2 ≤ l1.length
  | [], _ => Nat.zero_le _
  | _ :: _, [] => Nat.zero_le _
  | a :: as, b :: bs => by
    simp only [commonPrefixLen, List.length_cons]
    split
    · exact Nat.succ_le_succ (commonPrefixLen_le_left as bs)
    · exact Nat.zero_le _

theorem commonPrefixLen_le_right : ∀ l1 l2 : List Char, commonPrefixLen l1 l2 ≤ l2.length
  | [], _ => Nat.zero_le _
  | _ :: _, [] => Nat.zero_le _
  | a :: as, b :: bs => by
    simp only [commonPrefixLen, List.length_cons]
    split
    · exact Nat.succ_le_succ (commonPrefixLen_le_right as bs)
    · exact Nat.zero_le _

theorem commonRunLen_le_left (keep : Char → Bool) :
    ∀ l1 l2 : List Char, commonRunLen keep l1 l2 ≤ l1.length
  | [], _ => Nat.zero_le _
  | _ :: _, [] => Nat.zero_le _
  | a :: as, b :: bs => by
    simp only [commonRunLen, List.length_cons]
    split
    · exact Nat.succ_le_succ (commonRunLen_le_left keep as bs)
    · exact Nat.zero_le _

theorem commonRunLen_le_right (keep : Char → Bool) :
    ∀ l1 l2 : List Char, commonRunLen keep l1 l2 ≤ l2.length
  | [], _ => Nat.zero_le _
  | _ :: _, [] => Nat.zero_le _
  | a :: as, b :: bs => by
    simp only [commonRunLen, List.length_cons]
    split
    · exact Nat.succ_le_succ (commonRunLen_le_right keep as bs)
    · exact Nat.zero_le _

theorem candK_le_a (a b : List Char) (alo blo i j : Nat) :
    candK a b alo blo i j ≤ i + 1 - alo := by
  refine le_trans (commonRunLen_le_left _ _ _) ?_
  rw [List.length_reverse, List.length_take]
  exact min_le_left _ _

theorem candK_le_b (a b : List Char) (alo blo i j : Nat) :
    candK a b alo blo i j ≤ j + 1 - blo := by
  refine le_trans (commonRunLen_le_right _ _ _) ?_
  rw [List.length_reverse, List.length_take]
  exact min_le_left _ _

/-- The scanned best block lies inside the window. -/
theorem flmCore_inv (a b : List Char) (alo ahi blo bhi : Nat)
    (ha : alo ≤ ahi) (hb : blo ≤ bhi) :
    alo ≤ (flmCore a b alo ahi blo bhi).besti ∧
    (flmCore a b alo ahi blo bhi).besti + (flmCore a b alo ahi blo bhi).size ≤ ahi ∧
    blo ≤ (flmCore a b alo ahi blo bhi).bestj ∧
    (flmCore a b alo ahi blo bhi).bestj + (flmCore a b alo ahi blo bhi).size ≤ bhi := by
  unfold flmCore
  refine foldl_preserve
    (fun blk : Block => alo ≤ blk.besti ∧ blk.besti + blk.size ≤ ahi ∧
      blo ≤ blk.bestj ∧ blk.bestj + blk.size ≤ bhi)
    _ _ _ (by refine ⟨le_refl _, ?_, le_refl _, ?_⟩ <;> simp <;> omega) ?_
  intro st i hi hst
  have hi' : alo ≤ i ∧ i < ahi := by
    rw [List.mem_range'] at hi
    obtain ⟨k, hk, hke⟩ := hi
    omega
  refine foldl_preserve
    (fun blk : Block => alo ≤ blk.besti ∧ blk.besti + blk.size ≤ ahi ∧
      blo ≤ blk.bestj ∧ blk.bestj + blk.size ≤ bhi)
    _ _ _ hst ?_
  intro st2 j hj hst2
  have hj' : blo ≤ j ∧ j < bhi := by
    rw [List.mem_filter] at hj
    have h2 := hj.2
    simp only [decide_eq_true_eq] at h2
    exact h2
  have h1 := candK_le_a a b alo blo i j
  have h2 := candK_le_b a b alo blo i j
  by_cases hlt : st2.size < candK a b alo blo i j
  · show alo ≤ (if st2.size < candK a b alo blo i j then
        (⟨i + 1 - candK a b alo blo i j, j + 1 - candK a b alo blo i j,
          candK a b alo blo i j⟩ : Block) else st2).besti ∧ _
    rw [if_pos hlt]
    exact ⟨by show alo ≤ i + 1 - candK a b alo blo i j; omega,
      by show i + 1 - candK a b alo blo i j + candK a b alo blo i j ≤ ahi; omega,
      by show blo ≤ j + 1 - candK a b alo blo i j; omega,
      by show j + 1 - candK a b alo blo i j + candK a b alo blo i j ≤ bhi; omega⟩
  · show alo ≤ (if st2.size < candK a b alo blo i j then
        (⟨i + 1 - candK a b alo blo i j, j + 1 - candK a b alo blo i j,
          candK a b alo blo i j⟩ : Block) else st2).besti ∧ _
    rw [if_neg hlt]
    exact hst2

theorem extendLeft_inv (a b : List Char) (alo ahi blo bhi : Nat) (blk : Block)
    (h : alo ≤ blk.besti ∧ blk.besti + blk.size ≤ ahi ∧
      blo ≤ blk.bestj ∧ blk.bestj + blk.size ≤ bhi) :
    alo ≤ (extendLeft a b alo blo blk).besti ∧
    (extendLeft a b alo blo blk).besti + (extendLeft a b alo blo blk).size ≤ ahi ∧
    blo ≤ (extendLeft a b alo blo blk).bestj ∧
    (extendLeft a b alo blo blk).bestj + (extendLeft a b alo blo blk).size ≤ bhi := by
  have hd1 : commonPrefixLen ((a.drop alo).take (blk.besti - alo)).reverse
      ((b.drop blo).take (blk.bestj - blo)).reverse ≤ blk.besti - alo :=
    le_trans (commonPrefixLen_le_left _ _)
      (by rw [List.length_reverse, List.length_take]; exact min_le_left _ _)
  have hd2 : commonPrefixLen ((a.drop alo).take (blk.besti - alo)).reverse
      ((b.drop blo).take (blk.bestj - blo)).reverse ≤ blk.bestj - blo :=
    le_trans (commonPrefixLen_le_right _ _)
      (by rw [List.length_reverse, List.length_take]; exact min_le_left _ _)
  unfold extendLeft
  simp only
  exact ⟨by omega, by omega, by omega, by omega⟩

theorem extendRight_inv (a b : List Char) (alo ahi blo bhi : Nat) (blk : Block)
    (h : alo ≤ blk.besti ∧ blk.besti + blk.size ≤ ahi ∧
      blo ≤ blk.bestj ∧ blk.bestj + blk.size ≤ bhi) :
    alo ≤ (extendRight a b ahi bhi blk).besti ∧
    (extendRight a b ahi bhi blk).besti + (extendRight a b ahi bhi blk).size ≤ ahi ∧
    blo ≤ (extendRight a b ahi bhi blk).bestj ∧
    (extendRight a b ahi bhi blk).bestj + (extendRight a b ahi bhi blk).size ≤ bhi := by
  have he1 : commonPrefixLen ((a.drop (blk.besti + blk.size)).take (ahi - (blk.besti + blk.size)))
      ((b.drop (blk.bestj + blk.size)).take (bhi - (blk.bestj + blk.size)))
      ≤ ahi - (blk.besti + blk.size) :=
    le_trans (commonPrefixLen_le_left _ _)
      (by rw [List.length_take]; exact min_le_left _ _)
  have he2 : commonPrefixLen ((a.drop (blk.besti + blk.size)).take (ahi - (blk.besti + blk.size)))
      ((b.drop (blk.bestj + blk.size)).take (bhi - (blk.bestj + blk.size)))
      ≤ bhi - (blk.bestj + blk.size) :=
    le_trans (commonPrefixLen_le_right _ _)
      (by rw [List.length_take]; exact min_le_left _ _)
  unfold extendRight
  simp only
  exact ⟨by omega, by omega, by omega, by omega⟩

/-- The block `find_longest_match` returns lies inside the requested window. -/
theorem flm_inv (a b : List Char) (alo ahi blo bhi : Nat)
    (ha : alo ≤ ahi) (hb : blo ≤ bhi) :
    alo ≤ (find_longest_match a b alo ahi blo bhi).besti ∧
    (find_longest_match a b alo ahi blo bhi).besti
      + (find_longest_match a b alo ahi blo bhi).size ≤ ahi ∧
    blo ≤ (find_longest_match a b alo ahi blo bhi).bestj ∧
    (find_longest_match a b alo ahi blo bhi).bestj
      + (find_longest_match a b alo ahi blo bhi).size ≤ bhi := by
  unfold find_longest_match
  exact extendRight_inv a b alo ahi blo bhi _
    (extendLeft_inv a b alo ahi blo bhi _ (flmCore_inv a b alo ahi blo bhi ha hb))

/-- The total matched size over a window never exceeds either window
side's width. -/
theorem matchSumFuel_le (a b : List Char) :
    ∀ (fuel alo ahi blo bhi : Nat), alo ≤ ahi → blo ≤ bhi →
      matchSumFuel a b fuel alo ahi blo bhi ≤ ahi - alo ∧
      matchSumFuel a b fuel alo ahi blo bhi ≤ bhi - blo
  | 0, _, _, _, _, _, _ => ⟨Nat.zero_le _, Nat.zero_le _⟩
  | fuel + 1, alo, ahi, blo, bhi, ha, hb => by
    have hinv := flm_inv a b alo ahi blo bhi ha hb
    simp only [matchSumFuel]
    split
    · exact ⟨Nat.zero_le _, Nat.zero_le _⟩
    · obtain ⟨h1, h2, h3, h4⟩ := hinv
      have hL : (if alo < (find_longest_match a b alo ahi blo bhi).besti ∧
            blo < (find_longest_match a b alo ahi blo bhi).bestj then
            matchSumFuel a b fuel alo (find_longest_match a b alo ahi blo bhi).besti
              blo (find_longest_match a b alo ahi blo bhi).bestj else 0)
          ≤ (find_longest_match a b alo ahi blo bhi).besti - alo ∧
          (if alo < (find_longest_match a b alo ahi blo bhi).besti ∧
            blo < (find_longest_match a b alo ahi blo bhi).bestj then
            matchSumFuel a b fuel alo (find_longest_match a b alo ahi blo bhi).besti
              blo (find_longest_match a b alo ahi blo bhi).bestj else 0)
          ≤ (find_longest_match a b alo ahi blo bhi).bestj - blo := by
        split
        · exact matchSumFuel_le a b fuel alo _ blo _ h1 h3
        · exact ⟨Nat.zero_le _, Nat.zero_le _⟩
      have hR : (if (find_longest_match a b alo ahi blo bhi).besti
              + (find_longest_match a b alo ahi blo bhi).size < ahi ∧
            (find_longest_match a b alo ahi blo bhi).bestj
              + (find_longest_match a b alo ahi blo bhi).size < bhi then
            matchSumFuel a b fuel
              ((find_longest_match a b alo ahi blo bhi).besti
                + (find_longest_match a b alo ahi blo bhi).size) ahi
              ((find_longest_match a b alo ahi blo bhi).bestj
                + (find_longest_match a b alo ahi blo bhi).size) bhi else 0)
          ≤ ahi - ((find_longest_match a b alo ahi blo bhi).besti
              + (find_longest_match a b alo ahi blo bhi).size) ∧
          (if (find_longest_match a b alo ahi blo bhi).besti
              + (find_longest_match a b alo ahi blo bhi).size < ahi ∧
            (find_longest_match a b alo ahi blo bhi).bestj
              + (find_longest_match a b alo ahi blo bhi).size < bhi then
            matchSumFuel a b fuel
              ((find_longest_match a b alo ahi blo bhi).besti
                + (find_longest_match a b alo ahi blo bhi).size) ahi
              ((find_longest_match a b alo ahi blo bhi).bestj
                + (find_longest_match a b alo ahi blo bhi).size) bhi else 0)
          ≤ bhi - ((find_longest_match a b alo ahi blo bhi).bestj
              + (find_longest_match a b alo ahi blo bhi).size) := by
        split
        · exact matchSumFuel_le a b fuel _ ahi _ bhi h2 h4
        · exact ⟨Nat.zero_le _, Nat.zero_le _⟩
      exact ⟨by omega, by omega⟩

theorem matchTotal_le (a b : List Char) :
    matchTotal a b ≤ a.length ∧ matchTotal a b ≤ b.length := by
  have h := matchSumFuel_le a b (a.length + b.length) 0 a.length 0 b.length
    (Nat.zero_le _) (Nat.zero_le _)
  simpa using h

theorem toList_ne_nil (s : String) (h : s ≠ "") : s.toList ≠ [] := by
  cases s with
  | mk data =>
    cases data with
    | nil => exact absurd rfl h
    | cons c cs => simp [String.toList]

/-- The similarity percentage always lies in `[0, 100]`. -/
theorem calculate_similarity_range (s t : String) :
    0 ≤ calculate_similarity s t ∧ calculate_similarity s t ≤ 100 := by
  unfold calculate_similarity
  split
  · norm_num
  · rename_i h
    push_neg at h
    have hla : 1 ≤ (s.toList.map Char.toLower).length := by
      rw [List.length_map]
      exact List.length_pos.mpr (toList_ne_nil s h.1)
    have hlb : 1 ≤ (t.toList.map Char.toLower).length := by
      rw [List.length_map]
      exact List.length_pos.mpr (toList_ne_nil t h.2)
    set a := s.toList.map Char.toLower
    set b := t.toList.map Char.toLower
    unfold ratioValue
    rw [if_neg (by omega)]
    have hM := matchTotal_le a b
    have h2M : 2 * matchTotal a b ≤ a.length + b.length := by omega
    have hpos : (0 : ℚ) < (a.length : ℚ) + (b.length : ℚ) := by
      have : (0 : ℚ) < (a.length : ℚ) := by exact_mod_cast hla
      have hb0 : (0 : ℚ) ≤ (b.length : ℚ) := by positivity
      linarith
    have hx0 : (0 : ℚ) ≤ 2 * (matchTotal a b : ℚ) / ((a.length : ℚ) + (b.length : ℚ)) := by
      apply div_nonneg _ (le_of_lt hpos)
      positivity
    have hx1 : 2 * (matchTotal a b : ℚ) / ((a.length : ℚ) + (b.length : ℚ)) ≤ 1 := by
      rw [div_le_one hpos]
      exact_mod_cast h2M
    constructor
    · positivity
    · have := mul_le_mul_of_nonneg_right hx1 (by norm_num : (0 : ℚ) ≤ 100)
      simpa using this

/-- The scan of `sync_curriculum_matching` refines the spec's description:
the final score is the catalog maximum, and the selected subject is the
first one (in catalog iteration order) attaining that maximum — `none`
exactly when every score is 0 (strict `>` never fires). -/
theorem bestMatchFold_eq (desc : String) (catalog : List CitTorContent) :
    bestMatchFold desc catalog = (specFirstMatch desc catalog, specMaxScore desc catalog) := by
  have h := foldBest_eq (syncScore desc) (fun c => c) catalog none 0 le_rfl
  have hmax : max (0 : ℚ) ((catalog.map (syncScore desc)).foldr max 0)
      = specMaxScore desc catalog := by
    unfold specMaxScore
    exact max_eq_right (foldr_max_nonneg _)
  rw [hmax] at h
  have hL : bestMatchFold desc catalog
      = catalog.foldl (fun acc x =>
          if syncScore desc x > acc.2 then (some ((fun c => c) x), syncScore desc x) else acc)
        (none, 0) := rfl
  rw [hL, h]
  unfold specFirstMatch
  congr 1
  split
  · simp
  · rfl

/-- The nested description scan of `generate_summary` equals the fold
over the flattened (code, variant) item list. -/
theorem descBest_flat (entry : CompareResultTOR) :
    ∀ (cits : List CitTorContent) (acc : Option String × ℚ),
      cits.foldl (fun acc cit =>
          cit.description.foldl (fun acc desc =>
              if calculate_similarity entry.subject_description desc > acc.2 then
                (some cit.subject_code, calculate_similarity entry.subject_description desc)
              else acc) acc) acc
        = (descItems cits).foldl (fun acc it =>
            if calculate_similarity entry.subject_description it.2 > acc.2 then
              (some it.1, calculate_similarity entry.subject_description it.2)
            else acc) acc
  | [], acc => rfl
  | c :: cs, acc => by
    rw [List.foldl_cons, descBest_flat entry cs]
    have hcons : descItems (c :: cs)
        = c.description.map (fun d => (c.subject_code, d)) ++ descItems cs := by
      unfold descItems
      rw [List.flatMap_cons]
    rw [hcons, List.foldl_append, List.foldl_map]

/-- The best description similarity `generate_summary` reports is the
maximum over the whole provided curriculum pool (all rows, all variants). -/
theorem descBest_snd (entry : CompareResultTOR) (cits : List CitTorContent) :
    (descBest entry cits).2 = (descSims entry cits).foldr max 0 := by
  have hL : descBest entry cits
      = cits.foldl (fun acc cit =>
          cit.description.foldl (fun acc desc =>
              if calculate_similarity entry.subject_description desc > acc.2 then
                (some cit.subject_code, calculate_similarity entry.subject_description desc)
              else acc) acc) (none, 0) := rfl
  have h := foldBest_eq
    (fun it : String × String => calculate_similarity entry.subject_description it.2)
    (fun it => it.1) (descItems cits) none 0 le_rfl
  rw [hL, descBest_flat entry cits, h]
  show max 0 _ = _
  exact max_eq_right (foldr_max_nonneg _)

/-- Mapping with an always-`ok` computation via `mapM` yields `ok` of the map. -/
theorem mapM_ok {β γ : Type} (f : β → γ) : ∀ l : List β,
    (l.mapM (fun x => (Except.ok (f x) : Except Err γ))) = Except.ok (l.map f)
  | [] => rfl
  | x :: l => by
    rw [List.mapM_cons, mapM_ok f l]
    rfl

/-- A batch whose computation fails leaves the stored state untouched. -/
theorem runBatch_error_preserves {α : Type}
    (compute : CompareResultTOR → Except Err (CompareResultTOR × α))
    (fields : List String) (account_id : String) (db : DB) (err : Err)
    (h : (runBatch compute fields account_id db).1 = .error err) :
    (runBatch compute fields account_id db).2 = db := by
  unfold runBatch at h ⊢
  by_cases h0 : account_id = ""
  · rw [if_pos h0]
  · rw [if_neg h0] at h ⊢
    by_cases h1 : (db.compareResults.filter
        (fun e => decide (e.account_id = account_id))).isEmpty
    · rw [if_pos h1]
    · rw [if_neg h1] at h ⊢
      cases hm : (db.compareResults.filter
          (fun e => decide (e.account_id = account_id))).mapM compute with
      | error e => rfl
      | ok pairs =>
        rw [hm] at h
        simp at h

/-- Rows stored after `sync_curriculum_matching` keep their remarks: the
sync pass never writes the `remarks` column. -/
theorem sync_preserves_remarks (account_id : String) (db : DB)
    (e' : CompareResultTOR)
    (h : e' ∈ (sync_curriculum_matching account_id db).2.compareResults) :
    ∃ e ∈ db.compareResults, e'.remarks = e.remarks := by
  unfold sync_curriculum_matching runBatch at h
  by_cases h0 : account_id = ""
  · rw [if_pos h0] at h
    exact ⟨e', h, rfl⟩
  · rw [if_neg h0] at h
    by_cases h1 : (db.compareResults.filter
        (fun e => decide (e.account_id = account_id))).isEmpty
    · rw [if_pos h1] at h
      exact ⟨e', h, rfl⟩
    · rw [if_neg h1] at h
      rw [mapM_ok] at h
      simp only [bulkUpdate, List.mem_map] at h
      obtain ⟨old, hold, rfl⟩ := h
      refine ⟨old, hold, ?_⟩
      split
      · simp only [writeFields]
        rw [if_neg (by decide : ¬ ("remarks" ∈ syncFields))]
      · rfl

/-- Rows stored after `update_tor_results` keep their summaries: the bulk
accept/reject pass never writes the `summary` column. -/
theorem update_tor_results_preserves_summary (account_id : String)
    (failed_subjects : List String) (passed_subjects : List (String × String))
    (db : DB) (e' : CompareResultTOR)
    (h : e' ∈ (update_tor_results account_id failed_subjects passed_subjects
      db).2.compareResults) :
    ∃ e ∈ db.compareResults, e'.summary = e.summary := by
  unfold update_tor_results at h
  by_cases h0 : account_id = ""
  · rw [if_pos h0] at h
    exact ⟨e', h, rfl⟩
  · rw [if_neg h0] at h
    have hfold := foldl_preserve
      (fun st : List CompareResultTOR × Nat =>
        ∀ x ∈ st.1, ∃ e ∈ db.compareResults, x.summary = e.summary)
      passed_subjects
      (fun acc subj =>
        ((applyPassedSubject account_id acc.1 subj).1,
          acc.2 + (applyPassedSubject account_id acc.1 subj).2))
      (db.compareResults.filter (fun e =>
        !decide (e.account_id = account_id ∧ e.subject_code ∈ failed_subjects)), 0)
      (by
        intro x hx
        exact ⟨x, (List.mem_filter.mp hx).1, rfl⟩)
      (by
        intro st subj _ hst
        intro x hx
        simp only [applyPassedSubject, List.mem_map] at hx
        obtain ⟨y, hy, rfl⟩ := hx
        obtain ⟨e, he, hsum⟩ := hst y hy
        refine ⟨e, he, ?_⟩
        split
        · exact hsum
        · exact hsum)
    exact hfold e' h

/-- Rows stored after a standard-grading pass either keep both `remarks`
and `summary`, or receive both from one `computeStd` recomputation of a
stored entry: the two fields are written together. -/
theorem standard_grading_writes_together (account_id : String) (db : DB)
    (e' : CompareResultTOR)
    (h : e' ∈ (apply_standard_grading account_id db).2.compareResults) :
    (∃ e ∈ db.compareResults, e'.remarks = e.remarks ∧ e'.summary = e.summary) ∨
    (∃ s ∈ db.compareResults,
      e'.remarks = (computeStd (db.citContents.filter (fun c => c.is_active)) s).remarks ∧
      e'.summary = (computeStd (db.citContents.filter (fun c => c.is_active)) s).summary) := by
  unfold apply_standard_grading runBatch at h
  by_cases h0 : account_id = ""
  · rw [if_pos h0] at h
    exact Or.inl ⟨e', h, rfl, rfl⟩
  · rw [if_neg h0] at h
    by_cases h1 : (db.compareResults.filter
        (fun e => decide (e.account_id = account_id))).isEmpty
    · rw [if_pos h1] at h
      exact Or.inl ⟨e', h, rfl, rfl⟩
    · rw [if_neg h1] at h
      rw [mapM_ok] at h
      simp only [bulkUpdate, List.mem_map] at h
      obtain ⟨old, hold, rfl⟩ := h
      cases hfind : (((db.compareResults.filter
            (fun e => decide (e.account_id = account_id))).map
          (fun e => (computeStd (db.citContents.filter (fun c => c.is_active)) e,
            computeStd (db.citContents.filter (fun c => c.is_active)) e))).map
          Prod.fst).find? (fun n => decide (n.id = old.id)) with
      | none =>
        exact Or.inl ⟨old, hold, rfl, rfl⟩
      | some n =>
        have hn := List.mem_of_find?_eq_some hfind
        simp only [List.map_map, List.mem_map, Function.comp] at hn
        obtain ⟨s, hs, rfl⟩ := hn
        refine Or.inr ⟨s, (List.mem_filter.mp hs).1, ?_, ?_⟩
        · simp only [writeFields]
          rw [if_pos (by decide : "remarks" ∈ gradingFields)]
        · simp only [writeFields]
          rw [if_pos (by decide : "summary" ∈ gradingFields)]

/-- Reverse-grading analogue of `standard_grading_writes_together`. -/
theorem reverse_grading_writes_together (account_id : String) (db : DB)
    (e' : CompareResultTOR)
    (h : e' ∈ (apply_reverse_grading account_id db).2.compareResults) :
    (∃ e ∈ db.compareResults, e'.remarks = e.remarks ∧ e'.summary = e.summary) ∨
    (∃ s ∈ db.compareResults,
      e'.remarks = (computeRev (db.citContents.filter (fun c => c.is_active)) s).remarks ∧
      e'.summary = (computeRev (db.citContents.filter (fun c => c.is_active)) s).summary) := by
  unfold apply_reverse_grading runBatch at h
  by_cases h0 : account_id = ""
  · rw [if_pos h0] at h
    exact Or.inl ⟨e', h, rfl, rfl⟩
  · rw [if_neg h0] at h
    by_cases h1 : (db.compareResults.filter
        (fun e => decide (e.account_id = account_id))).isEmpty
    · rw [if_pos h1] at h
      exact Or.inl ⟨e', h, rfl, rfl⟩
    · rw [if_neg h1] at h
      rw [mapM_ok] at h
      simp only [bulkUpdate, List.mem_map] at h
      obtain ⟨old, hold, rfl⟩ := h
      cases hfind : (((db.compareResults.filter
            (fun e => decide (e.account_id = account_id))).map
          (fun e => (computeRev (db.citContents.filter (fun c => c.is_active)) e,
            computeRev (db.citContents.filter (fun c => c.is_active)) e))).map
          Prod.fst).find? (fun n => decide (n.id = old.id)) with
      | none =>
        exact Or.inl ⟨old, hold, rfl, rfl⟩
      | some n =>
        have hn := List.mem_of_find?_eq_some hfind
        simp only [List.map_map, List.mem_map, Function.comp] at hn
        obtain ⟨s, hs, rfl⟩ := hn
        refine Or.inr ⟨s, (List.mem_filter.mp hs).1, ?_, ?_⟩
        · simp only [writeFields]
          rw [if_pos (by decide : "remarks" ∈ gradingFields)]
        · simp only [writeFields]
          rw [if_pos (by decide : "summary" ∈ gradingFields)]

/-- A successful `find?` stays successful after appending rows. -/
theorem find?_append_some {α : Type} (p : α → Bool) (l ext : List α) (e : α)
    (h : l.find? p = some e) : (l ++ ext).find? p = some e := by
  rw [List.find?_append, h]
  rfl

/-- The loop of `copy_tor_entries` only ever appends rows. -/
theorem copyGo_extends : ∀ (ts : List TorTransferee) (L : List CompareResultTOR),
    ∃ ext, (copyGo ts L).2.2 = L ++ ext
  | [], L => ⟨[], by simp [copyGo]⟩
  | t :: ts, L => by
    unfold copyGo getOrCreate
    cases hf : L.find? (fun e =>
        decide (e.account_id = t.account_id ∧ e.subject_code = t.subject_code)) with
    | some e =>
      exact copyGo_extends ts L
    | none =>
      obtain ⟨ext, hext⟩ := copyGo_extends ts (L ++ [torDefaults t (nextId L)])
      exact ⟨torDefaults t (nextId L) :: ext, by rw [hext, List.append_assoc]; rfl⟩

/-- After the loop, every processed intake row's composite key is present
among the stored rows. -/
theorem copyGo_key_found : ∀ (ts : List TorTransferee) (L : List CompareResultTOR),
    ∀ t ∈ ts, ((copyGo ts L).2.2.find? (fun e =>
      decide (e.account_id = t.account_id ∧ e.subject_code = t.subject_code))).isSome
  | [], _, t, ht => absurd ht (List.not_mem_nil t)
  | u :: ts, L, t, ht => by
    unfold copyGo getOrCreate
    cases hf : L.find? (fun e =>
        decide (e.account_id = u.account_id ∧ e.subject_code = u.subject_code)) with
    | some e =>
      rcases List.mem_cons.mp ht with rfl | hts
      · obtain ⟨ext, hext⟩ := copyGo_extends ts L
        simp only [hext]
        rw [find?_append_some _ L ext e hf]
        rfl
      · exact copyGo_key_found ts L t hts
    | none =>
      rcases List.mem_cons.mp ht with rfl | hts
      · obtain ⟨ext, hext⟩ := copyGo_extends ts (L ++ [torDefaults t (nextId L)])
        simp only [hext]
        have hone : (L ++ [torDefaults t (nextId L)]).find? (fun e =>
            decide (e.account_id = t.account_id ∧ e.subject_code = t.subject_code))
            = some (torDefaults t (nextId L)) := by
          rw [List.find?_append, hf]
          simp [torDefaults]
        rw [find?_append_some _ _ ext _ hone]
        rfl
      · exact copyGo_key_found ts (L ++ [torDefaults u (nextId L)]) t hts

/-- When every intake row's key is already present, the loop creates
nothing and leaves the stored rows unchanged. -/
theorem copyGo_stable : ∀ (ts : List TorTransferee) (L : List CompareResultTOR),
    (∀ t ∈ ts, ((L.find? (fun e =>
      decide (e.account_id = t.account_id ∧ e.subject_code = t.subject_code))).isSome)) →
    (copyGo ts L).2.1 = 0 ∧ (copyGo ts L).2.2 = L
  | [], L, _ => ⟨rfl, rfl⟩
  | t :: ts, L, hall => by
    have ht := hall t (List.mem_cons_self t ts)
    obtain ⟨e, he⟩ := Option.isSome_iff_exists.mp ht
    unfold copyGo getOrCreate
    rw [he]
    have := copyGo_stable ts L (fun u hu => hall u (List.mem_cons_of_mem t hu))
    exact ⟨by simpa using this.1, this.2⟩

/-- Claim C4: under the STANDARD scale remarks are PASSED iff the grade
lies in [1.0, 2.9], FAILED iff it lies in [3.0, 5.0], and the
invalid-grade remark otherwise; under the REVERSE scale PASSED iff
[3.0, 5.0], FAILED iff [1.0, 2.9], invalid otherwise; the boundary
grades 2.9 and 3.0 each fall in exactly one band of each scale, and the
grading passes write exactly these remarks. -/
theorem c4_grading_bands (g : ℚ) :
    (standardRemark g = "PASSED" ↔ 1 ≤ g ∧ g ≤ 29 / 10) ∧
    (standardRemark g = "FAILED" ↔ 3 ≤ g ∧ g ≤ 5) ∧
    (standardRemark g = "INVALID GRADE" ↔
      ¬(1 ≤ g ∧ g ≤ 29 / 10) ∧ ¬(3 ≤ g ∧ g ≤ 5)) ∧
    (reverseRemark g = "PASSED" ↔ 3 ≤ g ∧ g ≤ 5) ∧
    (reverseRemark g = "FAILED" ↔ 1 ≤ g ∧ g ≤ 29 / 10) ∧
    (reverseRemark g = "INVALID GRADE" ↔
      ¬(1 ≤ g ∧ g ≤ 29 / 10) ∧ ¬(3 ≤ g ∧ g ≤ 5)) ∧
    standardRemark (29 / 10) = "PASSED" ∧ standardRemark 3 = "FAILED" ∧
    reverseRemark (29 / 10) = "FAILED" ∧ reverseRemark 3 = "PASSED" ∧
    (∀ (cit : List CitTorContent) (e : CompareResultTOR),
      (computeStd cit e).remarks = standardRemark e.final_grade) ∧
    (∀ (cit : List CitTorContent) (e : CompareResultTOR),
      (computeRev cit e).remarks = reverseRemark e.final_grade) := by
  unfold standardRemark reverseRemark STANDARD_PASSING_MIN STANDARD_PASSING_MAX
    STANDARD_FAILING_MIN STANDARD_FAILING_MAX
  refine ⟨?_, ?_, ?_, ?_, ?_, ?_, by norm_num, by norm_num, by norm_num, by norm_num,
    fun cit e => rfl, fun cit e => rfl⟩ <;>
    split_ifs with h1 h2 <;> simp_all <;> intro hx <;> try linarith [h1.1, h1.2]

/-- Claim C1: for an entry processed by `sync_curriculum_matching`, the
assigned disposition is INVESTIGATE exactly when the best score over the
catalog is strictly below 20, ACCEPTED exactly when the score is at
least 20, at least 80 and the entry is passing, VOID exactly when the
score is at least 20 and at least 50 but the ACCEPTED conditions fail,
and DENIED exactly when the score is at least 20 and strictly below 50;
a score of exactly 20 takes the match branch and a score of exactly 80
with a passing grade yields ACCEPTED. -/
theorem c1_sync_dispositions (catalog : List CitTorContent) (tor : CompareResultTOR) :
    ((syncEntry catalog tor).1.credit_evaluation
      = syncDisposition (bestMatchFold tor.subject_description catalog).2
          tor.is_passing_grade) ∧
    ((syncEntry catalog tor).1.credit_evaluation = CreditEvaluation.INVESTIGATE
      ↔ (bestMatchFold tor.subject_description catalog).2 < 20) ∧
    ((syncEntry catalog tor).1.credit_evaluation = CreditEvaluation.ACCEPTED
      ↔ 20 ≤ (bestMatchFold tor.subject_description catalog).2
        ∧ 80 ≤ (bestMatchFold tor.subject_description catalog).2
        ∧ tor.is_passing_grade = true) ∧
    ((syncEntry catalog tor).1.credit_evaluation = CreditEvaluation.VOID
      ↔ 20 ≤ (bestMatchFold tor.subject_description catalog).2
        ∧ 50 ≤ (bestMatchFold tor.subject_description catalog).2
        ∧ ¬(80 ≤ (bestMatchFold tor.subject_description catalog).2
            ∧ tor.is_passing_grade = true)) ∧
    ((syncEntry catalog tor).1.credit_evaluation = CreditEvaluation.DENIED
      ↔ 20 ≤ (bestMatchFold tor.subject_description catalog).2
        ∧ (bestMatchFold tor.subject_description catalog).2 < 50) ∧
    (∀ p : Bool, syncDisposition 20 p ≠ CreditEvaluation.INVESTIGATE) ∧
    syncDisposition 80 true = CreditEvaluation.ACCEPTED := by
  have hlink : (syncEntry catalog tor).1.credit_evaluation
      = syncDisposition (bestMatchFold tor.subject_description catalog).2
          tor.is_passing_grade := by
    by_cases hc : (bestMatchFold tor.subject_description catalog).2 ≥ SIMILARITY_THRESHOLD
    · simp [syncEntry, syncDisposition, hc]
    · simp [syncEntry, syncDisposition, hc]
  refine ⟨hlink, ?_, ?_, ?_, ?_, by intro p; cases p <;> decide, by decide⟩ <;>
    rw [hlink] <;>
    unfold syncDisposition creditEvalOf SIMILARITY_THRESHOLD <;>
    split_ifs with h1 h2 h3 <;>
    simp_all <;>
    linarith


/-! ### Concrete evaluations (staged through `norm_num`, because the
library's rational arithmetic is irreducible) -/

theorem sim_ab_bacb : calculate_similarity "ab" "bacb" = 200 / 3 := by
  unfold calculate_similarity ratioValue
  rw [if_neg (by decide), if_neg (by decide)]
  rw [show matchTotal ("ab".toList.map Char.toLower) ("bacb".toList.map Char.toLower) = 2
    from by decide]
  norm_num

theorem sim_bacb_ab : calculate_similarity "bacb" "ab" = 100 / 3 := by
  unfold calculate_similarity ratioValue
  rw [if_neg (by decide), if_neg (by decide)]
  rw [show matchTotal ("bacb".toList.map Char.toLower) ("ab".toList.map Char.toLower) = 1
    from by decide]
  norm_num

theorem sim_abc_abc : calculate_similarity "abc" "abc" = 100 := by
  unfold calculate_similarity ratioValue
  rw [if_neg (by decide), if_neg (by decide)]
  rw [show matchTotal ("abc".toList.map Char.toLower) ("abc".toList.map Char.toLower) = 3
    from by decide]
  norm_num

theorem sim_abc_xyz : calculate_similarity "abc" "xyz" = 0 := by
  unfold calculate_similarity ratioValue
  rw [if_neg (by decide), if_neg (by decide)]
  rw [show matchTotal ("abc".toList.map Char.toLower) ("xyz".toList.map Char.toLower) = 0
    from by decide]
  norm_num

theorem descBest_fixture :
    descBest fixtureEntry [fixtureCitOther, fixtureCitSame] = (some ("M1"), 100) := by
  have h1 : calculate_similarity fixtureEntry.subject_description "abc" = 100 := sim_abc_abc
  have h2 : calculate_similarity fixtureEntry.subject_description "xyz" = 0 := sim_abc_xyz
  simp only [descBest, fixtureCitOther, fixtureCitSame, List.foldl_cons, List.foldl_nil,
    h1, h2]
  norm_num

theorem sameCodeBest_fixture :
    sameCodeBest fixtureEntry [fixtureCitOther, fixtureCitSame] = (none, 0) := by
  have h2 : calculate_similarity fixtureEntry.subject_description "xyz" = 0 := sim_abc_xyz
  unfold sameCodeBest
  rw [show ([fixtureCitOther, fixtureCitSame].filter
      (fun c => decide (c.subject_code = fixtureEntry.subject_code))) = [fixtureCitSame]
    from by decide]
  simp only [descBest, fixtureCitSame, List.foldl_cons, List.foldl_nil, h2]
  norm_num

theorem bmf_fixture :
    bestMatchFold fixtureEntry.subject_description
      (fixtureDB.citContents.filter (fun c => c.is_active)) = (some fixtureCitOther, 100) := by
  rw [show fixtureDB.citContents.filter (fun c => c.is_active)
    = [fixtureCitOther, fixtureCitSame] from by decide]
  have hi1 : (" ".intercalate [("abc" : String)]) = "abc" := by decide
  have hi2 : (" ".intercalate [("xyz" : String)]) = "xyz" := by decide
  have h1 : calculate_similarity fixtureEntry.subject_description "abc" = 100 := sim_abc_abc
  have h2 : calculate_similarity fixtureEntry.subject_description "xyz" = 0 := sim_abc_xyz
  simp only [bestMatchFold, fixtureCitOther, fixtureCitSame, List.foldl_cons, List.foldl_nil,
    hi1, hi2, h1, h2]
  norm_num

theorem formatQ1_100 : formatQ1 100 = "100.0" := by
  unfold formatQ1 roundHalfEven
  have h1 : ((100 : ℚ) * 10) = 1000 := by norm_num
  simp only [h1]
  have h2 : ⌊(1000 : ℚ)⌋ = 1000 := by norm_num
  simp only [h2]
  rw [if_pos (by norm_num)]
  decide

theorem syncEntry_fixture :
    (syncEntry (fixtureDB.citContents.filter (fun c => c.is_active)) fixtureEntry).1
      = { fixtureEntry with
          summary :=
            "✓ Match Found\nCIT Subject: M1\nSimilarity: 100%\nUnits: Student=3, CIT=3"
          credit_evaluation := .ACCEPTED } := by
  simp only [syncEntry, bmf_fixture]
  rw [if_pos (by decide : (100 : ℚ) ≥ SIMILARITY_THRESHOLD)]
  decide

theorem sync_fixture :
    (sync_curriculum_matching "S100" fixtureDB).2.compareResults
      = [{ fixtureEntry with
            summary :=
              "✓ Match Found\nCIT Subject: M1\nSimilarity: 100%\nUnits: Student=3, CIT=3"
            credit_evaluation := .ACCEPTED }] := by
  unfold sync_curriculum_matching runBatch
  rw [if_neg (by decide), if_neg (by decide)]
  rw [mapM_ok]
  rw [show fixtureDB.compareResults.filter (fun e => decide (e.account_id = "S100"))
    = [fixtureEntry] from by decide]
  simp only [List.map_cons, List.map_nil]
  rw [syncEntry_fixture]
  decide

/-- Claim C5 counterexample: the similarity scorer is not symmetric.
`similarity("ab", "bacb")` matches two characters (ratio 4/6) while
`similarity("bacb", "ab")` matches only one (ratio 2/6), because the
greedy matcher breaks block ties by position in its first argument. -/
theorem c5_counterexample :
    ("ab" : String) ≠ "" ∧ ("bacb" : String) ≠ "" ∧
    calculate_similarity "ab" "bacb" = 200 / 3 ∧
    calculate_similarity "bacb" "ab" = 100 / 3 ∧
    calculate_similarity "ab" "bacb" ≠ calculate_similarity "bacb" "ab" := by
  refine ⟨by decide, by decide, sim_ab_bacb, sim_bacb_ab, ?_⟩
  rw [sim_ab_bacb, sim_bacb_ab]
  norm_num

/-- Claim C5 (amended): the scorer is not symmetric in general — see the
counterexample — but for every pair of strings both argument orders
yield a score within [0, 100]. -/
theorem c5_similarity_not_symmetric_but_bounded (a b : String) :
    0 ≤ calculate_similarity a b ∧ calculate_similarity a b ≤ 100 ∧
    0 ≤ calculate_similarity b a ∧ calculate_similarity b a ≤ 100 :=
  ⟨(calculate_similarity_range a b).1, (calculate_similarity_range a b).2,
   (calculate_similarity_range b a).1, (calculate_similarity_range b a).2⟩

/-- Claim C6: the matcher tracks the maximum with strict greater-than,
so the subject returned is the first catalog subject (in iteration
order) attaining the maximum score — and `none` exactly when no score is
positive. -/
theorem c6_first_match_wins (desc : String) (catalog : List CitTorContent) :
    bestMatchFold desc catalog
      = (specFirstMatch desc catalog, specMaxScore desc catalog) :=
  bestMatchFold_eq desc catalog

/-- Claim C2 counterexample: for an entry with code CS101 and description
"abc", a same-code curriculum row with an unrelated description and a
different-code row with an identical description, the reported
description line carries the 100% score of the different-code row, while
the best same-code similarity is 0 — the reported score is not computed
over the same-code pool. -/
theorem c2_counterexample :
    (sameCodeBest fixtureEntry [fixtureCitOther, fixtureCitSame]).2 = 0 ∧
    (descBest fixtureEntry [fixtureCitOther, fixtureCitSame]).2 = 100 ∧
    (summaryLines fixtureEntry [fixtureCitOther, fixtureCitSame]).get? 1
      = some ("✓ Description: 100.0% match with M1") ∧
    (summaryLines fixtureEntry [fixtureCitOther, fixtureCitSame]).get? 1
      ≠ some ("✗ Description: Low similarity (0.0%)") := by
  have hline : (summaryLines fixtureEntry [fixtureCitOther, fixtureCitSame]).get? 1
      = some ("✓ Description: 100.0% match with M1") := by
    simp only [summaryLines, descBest_fixture]
    rw [if_pos (by decide : (some ("M1"), (100 : ℚ)).2 ≥ 80)]
    rw [show formatQ1 (some ("M1"), (100 : ℚ)).2 = "100.0" from formatQ1_100]
    decide
  refine ⟨?_, ?_, hline, ?_⟩
  · rw [sameCodeBest_fixture]
  · rw [descBest_fixture]
  · rw [hline]
    decide

/-- Claim C2 (amended): the description-similarity line of the narrative
summary reports the best similarity over the whole provided curriculum
pool (every row and every description variant, regardless of subject
code), classified with the thresholds ≥ 80 (good), ≥ 50 (review), else
low. -/
theorem c2_description_pool (entry : CompareResultTOR) (cits : List CitTorContent) :
    (descBest entry cits).2 = (descSims entry cits).foldr max 0 ∧
    (summaryLines entry cits).get? 1 = some (
      if (descSims entry cits).foldr max 0 ≥ 80 then
        "✓ Description: " ++ formatQ1 ((descSims entry cits).foldr max 0)
          ++ "% match with " ++ pyOptStr (descBest entry cits).1
      else if (descSims entry cits).foldr max 0 ≥ 50 then
        "⚠ Description: " ++ formatQ1 ((descSims entry cits).foldr max 0)
          ++ "% match with " ++ pyOptStr (descBest entry cits).1 ++ " (review needed)"
      else "✗ Description: Low similarity ("
          ++ formatQ1 ((descSims entry cits).foldr max 0) ++ "%)") := by
  have hs := descBest_snd entry cits
  refine ⟨hs, ?_⟩
  rw [← hs]
  rfl

/-- Claim C10: the units check truncates the (possibly fractional) unit
total toward zero via `int()` before comparing with curriculum unit
counts — the truncation's magnitude is the floor of the magnitude — so
an entry with 3.5 units reports a match with a 3-unit subject. -/
theorem c10_units_truncation (entry : CompareResultTOR) (cits : List CitTorContent) :
    (unitsMatch entry cits = true ↔
      ∃ c ∈ cits, c.units = pyInt entry.total_academic_units) ∧
    (∀ q : ℚ, |pyInt q| = ⌊|q|⌋) ∧
    pyInt (7 / 2) = 3 ∧ pyInt (-7 / 2) = -3 ∧
    fixtureEntry.total_academic_units = 7 / 2 ∧
    unitsMatch fixtureEntry [fixtureCitOther] = true ∧
    (summaryLines fixtureEntry [fixtureCitOther, fixtureCitSame]).get? 2
      = some ("✓ Units: 3 units matches curriculum") := by
  have hbr : (7 / 2 : ℚ) = mkRat 7 2 := by
    norm_num [Rat.mkRat_eq_divInt, Rat.divInt_eq_div]
  have hbrn : (-7 / 2 : ℚ) = mkRat (-7) 2 := by
    norm_num [Rat.mkRat_eq_divInt, Rat.divInt_eq_div]
  refine ⟨?_, ?_, by rw [hbr]; decide, by rw [hbrn]; decide, by rw [hbr]; decide,
    by decide, by decide⟩
  · unfold unitsMatch
    rw [Bool.not_eq_true', List.isEmpty_eq_false]
    constructor
    · intro hne
      obtain ⟨c, hc⟩ := List.exists_mem_of_ne_nil _ hne
      have hcf := List.mem_filter.mp hc
      exact ⟨c, hcf.1, of_decide_eq_true hcf.2⟩
    · rintro ⟨c, hc, hu⟩
      intro hnil
      have hmem : c ∈ cits.filter
          (fun c => decide (c.units = pyInt entry.total_academic_units)) :=
        List.mem_filter.mpr ⟨hc, decide_eq_true hu⟩
      rw [hnil] at hmem
      exact absurd hmem (List.not_mem_nil c)
  · intro q
    unfold pyInt
    split
    · rename_i hq
      have h0 : (0 : ℤ) ≤ ⌊-q⌋ := Int.floor_nonneg.mpr (by linarith)
      rw [abs_of_neg hq, abs_neg, abs_of_nonneg h0]
    · rename_i hq
      push_neg at hq
      have h0 : (0 : ℤ) ≤ ⌊q⌋ := Int.floor_nonneg.mpr hq
      rw [abs_of_nonneg hq, abs_of_nonneg h0]

/-- Claim C9 counterexample: the statistics dictionary has no
"investigate" key at all — here the queried account even has an entry
with the INVESTIGATE disposition, yet the returned keys are only total,
accepted, denied, void, passed, failed, average_grade and total_units. -/
theorem c9_counterexample :
    fixtureInvEntry ∈ fixtureInvDB.compareResults ∧
    fixtureInvEntry.credit_evaluation = CreditEvaluation.INVESTIGATE ∧
    (get_comparison_statistics "S7" fixtureInvDB).lookup ("investigate") = none ∧
    ((get_comparison_statistics "S7" fixtureInvDB).map Prod.fst)
      = ["total", "accepted", "denied", "void", "passed", "failed",
        "average_grade", "total_units"] := by
  refine ⟨by decide, rfl, rfl, by decide⟩

/-- Claim C9 (amended): the read-only statistics query returns counts for
ACCEPTED, DENIED and VOID (but no INVESTIGATE count), pass/fail counts,
the rounded average grade and the total units. -/
theorem c9_statistics_contents (account_id : String) (db : DB) :
    (get_comparison_statistics account_id db).lookup ("total")
      = some (((db.compareResults.filter
          (fun e => decide (e.account_id = account_id))).length : ℚ)) ∧
    (get_comparison_statistics account_id db).lookup ("accepted")
      = some ((((db.compareResults.filter (fun e => decide (e.account_id = account_id))).filter
          (fun e => decide (e.credit_evaluation = .ACCEPTED))).length : ℚ)) ∧
    (get_comparison_statistics account_id db).lookup ("denied")
      = some ((((db.compareResults.filter (fun e => decide (e.account_id = account_id))).filter
          (fun e => decide (e.credit_evaluation = .DENIED))).length : ℚ)) ∧
    (get_comparison_statistics account_id db).lookup ("void")
      = some ((((db.compareResults.filter (fun e => decide (e.account_id = account_id))).filter
          (fun e => decide (e.credit_evaluation = .VOID))).length : ℚ)) ∧
    (get_comparison_statistics account_id db).lookup ("investigate") = none ∧
    (get_comparison_statistics account_id db).lookup ("passed")
      = some ((((db.compareResults.filter (fun e => decide (e.account_id = account_id))).filter
          (fun e => decide (e.remarks = "PASSED"))).length : ℚ)) ∧
    (get_comparison_statistics account_id db).lookup ("failed")
      = some ((((db.compareResults.filter (fun e => decide (e.account_id = account_id))).filter
          (fun e => decide (e.remarks = "FAILED"))).length : ℚ)) ∧
    (get_comparison_statistics account_id db).lookup ("total_units")
      = some (((db.compareResults.filter
          (fun e => decide (e.account_id = account_id))).map
            (fun e => e.total_academic_units)).sum) ∧
    (get_comparison_statistics account_id db).lookup ("average_grade")
      = some (
        if (db.compareResults.filter (fun e => decide (e.account_id = account_id))).isEmpty
            ∨ ((db.compareResults.filter (fun e => decide (e.account_id = account_id))).map
                (fun e => e.final_grade)).sum
              / ((db.compareResults.filter
                  (fun e => decide (e.account_id = account_id))).length : ℚ) = 0
        then 0
        else pyRound2 (((db.compareResults.filter
            (fun e => decide (e.account_id = account_id))).map
              (fun e => e.final_grade)).sum
          / ((db.compareResults.filter
              (fun e => decide (e.account_id = account_id))).length : ℚ))) :=
  ⟨rfl, rfl, rfl, rfl, rfl, rfl, rfl, rfl, rfl⟩

/-- Claim C7: every batch entry point (standard grading, reverse grading,
sync-match — all instances of the shared batch shape) computes all
per-entry mutations before persisting, and a computation failure for any
entry leaves the stored state exactly as it was: nothing computed
earlier in the batch is persisted. -/
theorem c7_batch_atomicity :
    (∀ (α : Type) (compute : CompareResultTOR → Except Err (CompareResultTOR × α))
      (fields : List String) (account_id : String) (db : DB) (err : Err),
      (runBatch compute fields account_id db).1 = .error err →
      (runBatch compute fields account_id db).2 = db) ∧
    (∀ (account_id : String) (db : DB),
      apply_standard_grading account_id db
        = runBatch (fun e => .ok (computeStd (db.citContents.filter (fun c => c.is_active)) e,
            computeStd (db.citContents.filter (fun c => c.is_active)) e))
          gradingFields account_id db) ∧
    (∀ (account_id : String) (db : DB),
      apply_reverse_grading account_id db
        = runBatch (fun e => .ok (computeRev (db.citContents.filter (fun c => c.is_active)) e,
            computeRev (db.citContents.filter (fun c => c.is_active)) e))
          gradingFields account_id db) ∧
    (∀ (account_id : String) (db : DB),
      sync_curriculum_matching account_id db
        = runBatch (fun e => .ok (syncEntry (db.citContents.filter (fun c => c.is_active)) e))
          syncFields account_id db) :=
  ⟨fun _ compute fields account_id db err h =>
      runBatch_error_preserves compute fields account_id db err h,
   fun _ _ => rfl, fun _ _ => rfl, fun _ _ => rfl⟩

/-- Witness for C7: a failing computation on a concrete batch leaves the
concrete database unchanged. -/
theorem c7_batch_atomicity_witness :
    (runBatch failingCompute [] "S100" fixtureDB).1 = Except.error Err.validation ∧
    (runBatch failingCompute [] "S100" fixtureDB).2 = fixtureDB :=
  ⟨rfl, c7_batch_atomicity.1 Unit failingCompute [] "S100" fixtureDB Err.validation rfl⟩

/-- Claim C8: a successful copy-entries-from-intake run is idempotent —
running it again creates zero new rows and leaves the stored rows (and
the whole database) unchanged. -/
theorem c8_copy_idempotent (account_id : String) (db : DB)
    (res : List CompareResultTOR × Nat) (db1 : DB)
    (h : copy_tor_entries account_id db = (.ok res, db1)) :
    ∃ es, copy_tor_entries account_id db1 = (.ok (es, 0), db1) := by
  unfold copy_tor_entries at h
  by_cases h0 : account_id = ""
  · rw [if_pos h0] at h
    simp at h
  · rw [if_neg h0] at h
    by_cases h1 : (db.torTransferees.filter
        (fun t => decide (t.account_id = account_id))).isEmpty
    · rw [if_pos h1] at h
      simp at h
    · rw [if_neg h1] at h
      have hdb1 : db1 = { db with compareResults :=
          (copyGo (db.torTransferees.filter (fun t => decide (t.account_id = account_id)))
            db.compareResults).2.2 } :=
        (congrArg Prod.snd h).symm
      subst hdb1
      unfold copy_tor_entries
      rw [if_neg h0]
      dsimp only
      rw [if_neg h1]
      have hall := copyGo_key_found
        (db.torTransferees.filter (fun t => decide (t.account_id = account_id)))
        db.compareResults
      have hstable := copyGo_stable
        (db.torTransferees.filter (fun t => decide (t.account_id = account_id)))
        ((copyGo (db.torTransferees.filter (fun t => decide (t.account_id = account_id)))
          db.compareResults).2.2)
        hall
      refine ⟨(copyGo (db.torTransferees.filter (fun t => decide (t.account_id = account_id)))
        ((copyGo (db.torTransferees.filter (fun t => decide (t.account_id = account_id)))
          db.compareResults).2.2)).1, ?_⟩
      rw [Prod.mk.injEq]
      constructor
      · rw [hstable.1]
      · rw [hstable.2]

/-- Witness for C8: copying one concrete intake row twice — the second
run creates nothing and changes nothing. -/
theorem c8_copy_idempotent_witness :
    ∃ es, copy_tor_entries "S9" (copy_tor_entries "S9" fixtureIntakeDB).2
      = (.ok (es, 0), (copy_tor_entries "S9" fixtureIntakeDB).2) :=
  c8_copy_idempotent "S9" fixtureIntakeDB
    ([torDefaults fixtureTransferee 0], 1)
    (copy_tor_entries "S9" fixtureIntakeDB).2 rfl

/-- Claim C3 counterexample: on a concrete database the sync pass stores
a freshly generated summary while leaving the stale remarks untouched —
summary and remarks are updated independently. -/
theorem c3_counterexample :
    ((sync_curriculum_matching "S100" fixtureDB).2.compareResults.map
        (fun e => e.remarks)) = ["OLD"] ∧
    ((sync_curriculum_matching "S100" fixtureDB).2.compareResults.map
        (fun e => e.summary))
      = ["✓ Match Found\nCIT Subject: M1\nSimilarity: 100%\nUnits: Student=3, CIT=3"] ∧
    fixtureEntry.summary = "OLDSUM" ∧ fixtureEntry.remarks = "OLD" ∧
    ("✓ Match Found\nCIT Subject: M1\nSimilarity: 100%\nUnits: Student=3, CIT=3" : String)
      ≠ "OLDSUM" := by
  refine ⟨?_, ?_, rfl, rfl, by decide⟩
  · rw [sync_fixture]
    decide
  · rw [sync_fixture]
    decide

/-- Claim C3 (amended): only the two grading passes regenerate remarks
and summary together; the sync pass rewrites summaries but never
remarks, and the bulk accept/reject pass rewrites remarks but never
summaries. -/
theorem c3_summary_remarks_coupling (account_id : String) (db : DB) :
    (∀ e' ∈ (apply_standard_grading account_id db).2.compareResults,
      (∃ e ∈ db.compareResults, e'.remarks = e.remarks ∧ e'.summary = e.summary) ∨
      (∃ s ∈ db.compareResults,
        e'.remarks = (computeStd (db.citContents.filter (fun c => c.is_active)) s).remarks ∧
        e'.summary = (computeStd (db.citContents.filter (fun c => c.is_active)) s).summary)) ∧
    (∀ e' ∈ (apply_reverse_grading account_id db).2.compareResults,
      (∃ e ∈ db.compareResults, e'.remarks = e.remarks ∧ e'.summary = e.summary) ∨
      (∃ s ∈ db.compareResults,
        e'.remarks = (computeRev (db.citContents.filter (fun c => c.is_active)) s).remarks ∧
        e'.summary = (computeRev (db.citContents.filter (fun c => c.is_active)) s).summary)) ∧
    (∀ e' ∈ (sync_curriculum_matching account_id db).2.compareResults,
      ∃ e ∈ db.compareResults, e'.remarks = e.remarks) ∧
    (∀ (failed : List String) (passed : List (String × String)),
      ∀ e' ∈ (update_tor_results account_id failed passed db).2.compareResults,
      ∃ e ∈ db.compareResults, e'.summary = e.summary) :=
  ⟨fun e' h => standard_grading_writes_together account_id db e' h,
   fun e' h => reverse_grading_writes_together account_id db e' h,
   fun e' h => sync_preserves_remarks account_id db e' h,
   fun failed passed e' h =>
     update_tor_results_preserves_summary account_id failed passed db e' h⟩

/-- Witness for C3 (amended): the entry stored by the concrete sync run
keeps the remarks of a stored entry. -/
theorem c3_summary_remarks_coupling_witness :
    ∃ e ∈ fixtureDB.compareResults,
      ({ fixtureEntry with
          summary := "✓ Match Found\nCIT Subject: M1\nSimilarity: 100%\nUnits: Student=3, CIT=3"
          credit_evaluation := CreditEvaluation.ACCEPTED } : CompareResultTOR).remarks
        = e.remarks :=
  (c3_summary_remarks_coupling "S100" fixtureDB).2.2.1 _ (by rw [sync_fixture]; decide)
